import Mathlib

/-!
Verification of the osu! replay (.osr) binary decoder of this repository
(src/osupyparser/osr/osr_parser.py) against its natural-language
specification.  The Python source is shallowly embedded below: byte
buffers are lists of naturals, the cursor-based reader is a structure
with explicit offset threading, Python exceptions are an error type
returned through Except, Python float arithmetic is modelled exactly
over the rationals, and the external lzma.decompress collaborator is
passed in as an oracle function from compressed bytes to decompressed
text.
-/

/-- Kinds of Python run-time failures the embedded code can raise.
Only the kind matters for the claims, not the message. -/
inductive PyErr where
  /-- TypeError, e.g. adding an int offset to the str returned by a
  failed read_uleb128 inside BinaryRotator.read. -/
  | typeErr
  /-- struct.error raised by struct.unpack on a size mismatch. -/
  | structErr
  /-- LZMAError from lzma.decompress on invalid input. -/
  | lzmaErr
  /-- ValueError from int()/float() on an unparseable literal, or a
  text decode failure. -/
  | valueErr
  /-- IndexError from indexing a too-short list of token fields. -/
  | indexErr
  /-- AttributeError, e.g. calling .append on a property descriptor. -/
  | attrErr
  /-- UnboundLocalError: the frame variable is never assigned when the
  mode value matches none of the four known variants. -/
  | nameErr
deriving Repr, DecidableEq

/-- BinaryRotator (osr_parser.py lines 8-74): an immutable byte buffer
plus a monotonically advanced read offset. -/
structure BinaryRotator where
  buffer : List Nat
  offset : Nat
deriving Repr, DecidableEq

/-- BinaryRotator.read (lines 15-20): data = self.buffer[self.offset :
self.offset + n]; self.offset += n.  Python slicing silently truncates
at the end of the buffer, and the offset advances by n even past the
end; both behaviours are preserved here. -/
def BinaryRotator.read (r : BinaryRotator) (n : Nat) : List Nat × BinaryRotator :=
  ((r.buffer.drop r.offset).take n, { r with offset := r.offset + n })

/-- int.from_bytes(bs, "little", signed=False): little-endian value of
however many bytes are actually present (an empty slice gives 0). -/
def fromBytesLE : List Nat → Nat
  | [] => 0
  | b :: bs => b + 256 * fromBytesLE bs

/-- int.from_bytes(bs, "little", signed=True): two's complement over
the actual length of the slice, decided by the high bit of the last
byte; an empty slice gives 0. -/
def fromBytesLESigned (bs : List Nat) : Int :=
  match bs.getLast? with
  | none => 0
  | some b => if b < 128 then (fromBytesLE bs : Int)
              else (fromBytesLE bs : Int) - (256 : Int) ^ bs.length

/-- BinaryRotator.read_int (lines 22-28). -/
def BinaryRotator.read_int (r : BinaryRotator) (size : Nat) (signed : Bool) :
    Int × BinaryRotator :=
  let p := r.read size
  (if signed then fromBytesLESigned p.1 else (fromBytesLE p.1 : Int), p.2)

/-- BinaryRotator.read_u8 (lines 30-31). -/
def BinaryRotator.read_u8 (r : BinaryRotator) : Int × BinaryRotator :=
  r.read_int 1 false

/-- BinaryRotator.read_u16 (lines 33-34). -/
def BinaryRotator.read_u16 (r : BinaryRotator) : Int × BinaryRotator :=
  r.read_int 2 false

/-- BinaryRotator.read_i32 (lines 42-43). -/
def BinaryRotator.read_i32 (r : BinaryRotator) : Int × BinaryRotator :=
  r.read_int 4 true

/-- BinaryRotator.read_i64 (lines 48-49). -/
def BinaryRotator.read_i64 (r : BinaryRotator) : Int × BinaryRotator :=
  r.read_int 8 true

/-- struct.unpack("<f", bs): format "<f" describes exactly 4 bytes, so
struct.error is raised whenever bs has any other length.  The decoded
32-bit float value is irrelevant to every claim, so only the length
check is modelled. -/
def unpackLTf (bs : List Nat) : Except PyErr Unit :=
  if bs.length = 4 then Except.ok () else Except.error PyErr.structErr

/-- BinaryRotator.read_f64 (lines 54-55): struct.unpack("<f",
self.read(8)).  The 8-byte slice never matches the 4-byte "<f" format,
so this raises struct.error whenever at least 5 bytes remain (and only
yields a value when the buffer happens to end after exactly 4). -/
def BinaryRotator.read_f64 (r : BinaryRotator) : Except PyErr (Unit × BinaryRotator) :=
  let p := r.read 8
  match unpackLTf p.1 with
  | Except.ok u => Except.ok (u, p.2)
  | Except.error e => Except.error e

/-- Result of read_uleb128: the annotated int on success, or the
Python str value "" that line 60 silently returns when the marker byte
is not 0x0b. -/
inductive ULebRet where
  | strVal (s : String)
  | intVal (n : Nat)
deriving Repr, DecidableEq

/-- Inner while-loop of read_uleb128 (lines 62-68) over the bytes that
remain past the marker.  Returns the accumulated value together with
the number of bytes the loop consumed.  Reading past the end of the
buffer yields byte 0, which has no continuation bit, so the loop also
terminates on buffer exhaustion (while still advancing the offset). -/
def uleb_loop : List Nat → Nat → Nat → Nat × Nat
  | [], _, val => (val, 1)
  | b :: rest, shift, val =>
    let val2 := val ||| ((b &&& 0x7f) <<< shift)
    if b &&& 0x80 = 0 then (val2, 1)
    else
      let p := uleb_loop rest (shift + 7) val2
      (p.1, p.2 + 1)

/-- BinaryRotator.read_uleb128 (lines 57-69).  When the first byte is
not the 0x0b marker the Python code returns the string "" (despite the
-> int annotation) instead of raising; this is preserved verbatim. -/
def BinaryRotator.read_uleb128 (r : BinaryRotator) : ULebRet × BinaryRotator :=
  let p := r.read_u8
  if p.1 ≠ 0x0b then (ULebRet.strVal "", p.2)
  else
    let q := uleb_loop (p.2.buffer.drop p.2.offset) 0 0
    (ULebRet.intVal q.1, { p.2 with offset := p.2.offset + q.2 })

/-- bytes.decode(): modelled for the ASCII range only (every byte of
the replay text format is ASCII); a byte outside it is treated as a
decode failure. -/
def pyDecodeAscii (bs : List Nat) : Except PyErr String :=
  if bs.all (fun b => b < 128) then
    Except.ok (String.mk (bs.map (fun b => Char.ofNat b)))
  else Except.error PyErr.valueErr

/-- BinaryRotator.read_string (lines 71-74): s_len = read_uleb128();
return self.read(s_len).decode().  When read_uleb128 returned the
stray "" value, self.read("") computes self.offset + "" and raises
TypeError. -/
def BinaryRotator.read_string (r : BinaryRotator) : Except PyErr (String × BinaryRotator) :=
  let p := r.read_uleb128
  match p.1 with
  | ULebRet.strVal _ => Except.error PyErr.typeErr
  | ULebRet.intVal n =>
    let q := p.2.read n
    match pyDecodeAscii q.1 with
    | Except.ok s => Except.ok (s, q.2)
    | Except.error e => Except.error e

/-- Python str.split for a one-character separator, over lists of
characters: always returns at least one (possibly empty) chunk, with a
trailing separator producing a trailing empty chunk. -/
def splitChars (sep : Char) : List Char → List (List Char)
  | [] => [[]]
  | c :: cs =>
    let r := splitChars sep cs
    if c = sep then [] :: r
    else
      match r with
      | [] => [[c]]
      | h :: t => (c :: h) :: t

/-- Python s.split(sep) for the one-character separators "," and "|"
used by the source. -/
def pySplit (s : String) (sep : Char) : List String :=
  (splitChars sep s.data).map String.mk

/-- Value of one decimal digit character (anything else is rejected
before this is consulted). -/
def digitVal (c : Char) : Nat :=
  if c = '0' then 0 else if c = '1' then 1 else if c = '2' then 2
  else if c = '3' then 3 else if c = '4' then 4 else if c = '5' then 5
  else if c = '6' then 6 else if c = '7' then 7 else if c = '8' then 8
  else 9

/-- Value of a list of decimal digit characters. -/
def digitsVal (l : List Char) : Nat :=
  l.foldl (fun a c => 10 * a + digitVal c) 0

/-- A non-empty all-digit character list, or failure. -/
def digitsToNat? (l : List Char) : Option Nat :=
  if l ≠ [] ∧ l.all Char.isDigit then some (digitsVal l) else none

/-- Python int(str) restricted to an optional sign followed by decimal
digits, which covers every literal the replay format produces; any
other shape is a ValueError, modelled as none. -/
def pyInt? (s : String) : Option Int :=
  match s.data with
  | [] => none
  | c :: rest =>
    if c = '-' then (digitsToNat? rest).map (fun n => -(n : Int))
    else if c = '+' then (digitsToNat? rest).map (fun n => (n : Int))
    else (digitsToNat? (c :: rest)).map (fun n => (n : Int))

/-- Magnitude part of a Python float literal: digits with an optional
fractional part, at least one digit overall, valued exactly as a
rational. -/
def pyFloatMag? (l : List Char) : Option Rat :=
  match splitChars '.' l with
  | [a] => (digitsToNat? a).map (fun n => (n : Rat))
  | [a, b] =>
    if (a.all Char.isDigit && b.all Char.isDigit) ∧ (a ≠ [] ∨ b ≠ []) then
      some ((digitsVal a : Rat) + (digitsVal b : Rat) / (10 : Rat) ^ b.length)
    else none
  | _ => none

/-- Python float(str) restricted to signed decimal literals, modelled
exactly over the rationals (the source stores the parsed coordinates
without further float arithmetic, so the exact value is faithful);
other shapes are a ValueError, modelled as none. -/
def pyFloat? (s : String) : Option Rat :=
  match s.data with
  | [] => none
  | c :: rest =>
    if c = '-' then (pyFloatMag? rest).map (fun q => -q)
    else if c = '+' then pyFloatMag? rest
    else pyFloatMag? (c :: rest)

/-- The four replay-frame dataclasses (osr_parser.py lines 77-103) as
one sum type; the constructor chosen per record matches the mode field
of the header.  Coordinates parsed by float() are exact rationals. -/
inductive ReplayFrame where
  | OsuReplayFrame (delta : Int) (x y : Rat) (keys : Int)
  | TaikoReplayFrame (delta : Int) (x : Rat) (keys : Int)
  | CatchReplayFrame (delta : Int) (x : Rat) (dashing : Bool)
  | ManiaReplayFrame (delta : Int) (keys : Int)
deriving Repr, DecidableEq

/-- The pair of mutable fields the frame-decoding loop of read_lzma
updates: the frame list being built and the last seed seen. -/
structure FrameState where
  frames : List ReplayFrame
  seed : Option Int
deriving Repr, DecidableEq

/-- Python list indexing action[i]: IndexError when out of range. -/
def getTok (action : List String) (i : Nat) : Except PyErr String :=
  match action.get? i with
  | some s => Except.ok s
  | none => Except.error PyErr.indexErr

/-- Python int(s): ValueError when unparseable. -/
def pyIntE (s : String) : Except PyErr Int :=
  match pyInt? s with
  | some n => Except.ok n
  | none => Except.error PyErr.valueErr

/-- Python float(s): ValueError when unparseable. -/
def pyFloatE (s : String) : Except PyErr Rat :=
  match pyFloat? s with
  | some q => Except.ok q
  | none => Except.error PyErr.valueErr

/-- Body of the for-loop of ReplayFile.read_lzma (lines 270-288) for
one comma-separated token: split the token on the pipe; when the
version is at least 20130319 and the first field is the "-12345"
sentinel, store int(field 3) as the seed and emit no frame; otherwise
construct the frame variant selected by the mode, evaluating the field
accesses and conversions in Python's left-to-right order, and append
it.  A mode outside 0-3 leaves the frame variable unbound. -/
def frame_step (mode version : Int) (st : FrameState) (tok : String) :
    Except PyErr FrameState :=
  let action := pySplit tok '|'
  if version ≥ 20130319 ∧ action.headD "" = "-12345" then do
    let f3 ← getTok action 3
    let s ← pyIntE f3
    Except.ok { st with seed := some s }
  else if mode = 0 then do
    let a0 ← getTok action 0
    let d ← pyIntE a0
    let a1 ← getTok action 1
    let x ← pyFloatE a1
    let a2 ← getTok action 2
    let y ← pyFloatE a2
    let a3 ← getTok action 3
    let k ← pyIntE a3
    Except.ok { st with frames := st.frames ++ [ReplayFrame.OsuReplayFrame d x y k] }
  else if mode = 1 then do
    let a0 ← getTok action 0
    let d ← pyIntE a0
    let a1 ← getTok action 1
    let x ← pyFloatE a1
    let a3 ← getTok action 3
    let k ← pyIntE a3
    Except.ok { st with frames := st.frames ++ [ReplayFrame.TaikoReplayFrame d x k] }
  else if mode = 2 then do
    let a0 ← getTok action 0
    let d ← pyIntE a0
    let a1 ← getTok action 1
    let x ← pyFloatE a1
    let a3 ← getTok action 3
    Except.ok { st with frames := st.frames ++ [ReplayFrame.CatchReplayFrame d x (a3 = "1")] }
  else if mode = 3 then do
    let a0 ← getTok action 0
    let d ← pyIntE a0
    let a1 ← getTok action 1
    let k ← pyIntE a1
    Except.ok { st with frames := st.frames ++ [ReplayFrame.ManiaReplayFrame d k] }
  else Except.error PyErr.nameErr

/-- Frame-token loop of read_lzma (lines 268-288): split the
decompressed text on the comma, drop the last chunk (Python's [:-1]),
and fold the per-token step over the remainder starting from a given
frame/seed state. -/
def run_frame_tokens (mode version : Int) (st0 : FrameState) (text : String) :
    Except PyErr FrameState :=
  ((pySplit text ',').dropLast).foldlM (frame_step mode version) st0

/-- Frame demultiplexing of a freshly decompressed text (empty frame
list, no seed yet), as performed by the first read_lzma call. -/
def parse_frames_text (mode version : Int) (text : String) : Except PyErr FrameState :=
  run_frame_tokens mode version { frames := [], seed := none } text

/-- ReplayFile (osr_parser.py lines 108-135): the decoded record.  The
reader is the private __reader; datetime values are kept as the
microsecond count computed on line 300 (ticks // 10) rather than a
calendar value; trailing-underscore fields are the lazily populated
private caches (_frames and friends), None as none.  The target
practice cache holds Unit because read_f64 can never produce a value
(see BinaryRotator.read_f64). -/
structure RFile where
  reader : BinaryRotator
  mode : Int
  osu_version : Int
  map_md5 : String
  player_name : String
  replay_md5 : String
  n300 : Int
  n100 : Int
  n50 : Int
  ngeki : Int
  nkatu : Int
  nmiss : Int
  score : Int
  max_combo : Int
  perfect : Bool
  mods : Int
  life_graph : String
  timestamp_us : Int
  frames_ : Option (List ReplayFrame)
  score_id_ : Option Int
  seed_ : Option Int
  accuracy_ : Option Rat
  target_practice_hits_ : Option Unit
deriving Repr, DecidableEq

/-- ReplayFile.__init__ (lines 111-135): every field is assigned a
default; the reader starts as an empty one (None in the source, always
replaced before any read). -/
def RFile.init : RFile :=
  { reader := { buffer := [], offset := 0 }
    mode := 0
    osu_version := 0
    map_md5 := ""
    player_name := ""
    replay_md5 := ""
    n300 := 0
    n100 := 0
    n50 := 0
    ngeki := 0
    nkatu := 0
    nmiss := 0
    score := 0
    max_combo := 0
    perfect := false
    mods := 0
    life_graph := ""
    timestamp_us := 0
    frames_ := none
    score_id_ := none
    seed_ := none
    accuracy_ := none
    target_practice_hits_ := none }

/-- Mod table of ReplayFile.parse_osu_mods (lines 211-225), in dict
declaration order (Python dicts preserve insertion order). -/
def MODS : List (String × Int) :=
  [("HD", 8), ("HR", 16), ("DT", 64), ("EZ", 2), ("HT", 256), ("NC", 512),
   ("NF", 1), ("SD", 32), ("PF", 16384), ("FL", 1024), ("RX", 128),
   ("AP", 2048), ("SO", 4096)]

/-- ReplayFile.parse_osu_mods (lines 175-228), as a function of the
self.mods bitmask it reads: functools.reduce over the table appending
a space and the abbreviation whenever the bit is set. -/
def parse_osu_mods (mods : Int) : String :=
  MODS.foldl (fun acc val => if Int.land mods val.2 ≠ 0 then acc ++ " " ++ val.1 else acc) ""

/-- ReplayFile.accuracy (lines 230-237): cached weighted percentage;
Python float arithmetic modelled exactly over the rationals (the two
concrete values the spec quotes are exactly representable either
way). -/
def RFile.accuracy (rf : RFile) : Rat × RFile :=
  match rf.accuracy_ with
  | some a => (a, rf)
  | none =>
    let all_hit_objects : Int := max (rf.n300 + rf.n100 + rf.n50 + rf.nmiss) 1
    let weighted : Rat := (rf.n300 : Rat) + (rf.n100 : Rat) * (1 / 3) + (rf.n50 : Rat) * (1 / 6)
    let a := weighted / (all_hit_objects : Rat) * 100
    (a, { rf with accuracy_ := some a })

/-- Score-id trailer of read_lzma (lines 290-294): 8 bytes when the
version is at least 20140721, else 4 bytes when at least 20121008,
else nothing. -/
def RFile.read_score_id (rf : RFile) : RFile :=
  if rf.osu_version ≥ 20140721 then
    let p := rf.reader.read_i64
    { rf with score_id_ := some p.1, reader := p.2 }
  else if rf.osu_version ≥ 20121008 then
    let p := rf.reader.read_i32
    { rf with score_id_ := some p.1, reader := p.2 }
  else rf

/-- Target-practice trailer of read_lzma (lines 296-297): when mod bit
8388608 is set, self._target_practice_hits = self.__reader.read_f64(),
which always reaches the struct.unpack size mismatch when 8 bytes are
available. -/
def RFile.read_target_practice (rf : RFile) : Except PyErr RFile :=
  if Int.land rf.mods 8388608 ≠ 0 then
    match rf.reader.read_f64 with
    | Except.ok p => Except.ok { rf with target_practice_hits_ := some p.1, reader := p.2 }
    | Except.error e => Except.error e
  else Except.ok rf

/-- Both trailer reads of read_lzma in source order. -/
def RFile.read_trailer (rf : RFile) : Except PyErr RFile :=
  rf.read_score_id.read_target_practice

/-- ReplayFile.read_lzma (lines 263-297).  D is the external
lzma.decompress collaborator (composed with the ascii decode),
supplied as an oracle from the compressed bytes to the decompressed
text.  A negative declared length only arises from malformed input and
is clamped to an empty read here.  _frames is reset to [] and _seed
keeps its previous value, exactly as in the source. -/
def RFile.read_lzma (rf : RFile) (D : List Nat → Except PyErr String) :
    Except PyErr RFile := do
  let p := rf.reader.read_i32
  let q := p.2.read p.1.toNat
  let text ← D q.1
  let st ← run_frame_tokens rf.mode rf.osu_version { frames := [], seed := rf.seed_ } text
  let rf2 := { rf with reader := q.2, frames_ := some st.frames, seed_ := st.seed }
  rf2.read_trailer

/-- ReplayFile.frames property (lines 239-243): trigger read_lzma when
the cache is still None, then return whatever the cache now holds. -/
def RFile.frames_get (rf : RFile) (D : List Nat → Except PyErr String) :
    Except PyErr (Option (List ReplayFrame) × RFile) :=
  match rf.frames_ with
  | some l => Except.ok (some l, rf)
  | none => do
    let rf2 ← rf.read_lzma D
    Except.ok (rf2.frames_, rf2)

/-- ReplayFile.score_id property (lines 245-249). -/
def RFile.score_id_get (rf : RFile) (D : List Nat → Except PyErr String) :
    Except PyErr (Option Int × RFile) :=
  match rf.score_id_ with
  | some v => Except.ok (some v, rf)
  | none => do
    let rf2 ← rf.read_lzma D
    Except.ok (rf2.score_id_, rf2)

/-- ReplayFile.target_practice_hits property (lines 251-255). -/
def RFile.target_practice_hits_get (rf : RFile) (D : List Nat → Except PyErr String) :
    Except PyErr (Option Unit × RFile) :=
  match rf.target_practice_hits_ with
  | some v => Except.ok (some v, rf)
  | none => do
    let rf2 ← rf.read_lzma D
    Except.ok (rf2.target_practice_hits_, rf2)

/-- ReplayFile.seed property (lines 257-261). -/
def RFile.seed_get (rf : RFile) (D : List Nat → Except PyErr String) :
    Except PyErr (Option Int × RFile) :=
  match rf.seed_ with
  | some v => Except.ok (some v, rf)
  | none => do
    let rf2 ← rf.read_lzma D
    Except.ok (rf2.seed_, rf2)

/-- ReplayFile.parse_lzma (lines 158-173) as reachable through
from_bytes, where self is the class object itself (see from_bytes
below): lzma.decompress is applied to the whole buffer, and for each
non-sentinel token the frame constructor arguments are evaluated and
then self.frames.append(frame) is executed.  On the class object,
self.frames yields the property descriptor itself, and a property has
no append attribute, so AttributeError is raised; on a plain instance
the call would already have failed earlier (parse_data line 305 passes
self twice).  The sentinel branch (unreachable through from_bytes,
which has just reset osu_version to 0) rebinds the class attribute
named seed, modelled as the seed cache. -/
def RFile.parse_lzma (rf : RFile) (D : List Nat → Except PyErr String) :
    Except PyErr RFile := do
  let text ← D rf.reader.buffer
  ((pySplit text ',').dropLast).foldlM
    (fun (st : RFile) tok =>
      let action := pySplit tok '|'
      if st.osu_version ≥ 20130319 ∧ action.headD "" = "-12345" then do
        let f3 ← getTok action 3
        let s ← pyIntE f3
        Except.ok { st with seed_ := some s }
      else do
        let a0 ← getTok action 0
        let _ ← pyIntE a0
        let a1 ← getTok action 1
        let _ ← pyFloatE a1
        let a2 ← getTok action 2
        let _ ← pyFloatE a2
        let a3 ← getTok action 3
        let _ ← pyIntE a3
        (Except.error PyErr.attrErr : Except PyErr RFile))
    rf

/-- ReplayFile.parse_timestamp (lines 299-300): ticks // 10
microseconds past the year-1 epoch (Python floor division). -/
def parse_timestamp (ticks : Int) : Int :=
  Int.fdiv ticks 10

/-- ReplayFile.parse_data (lines 302-326): the pure-lzma branch, or
the fixed header schema read in stream order.  Fixed-width reads never
fail (BinaryRotator.read silently truncates); the only failure points
are the three strings and the life graph, whose marker byte ends in
the TypeError of read_string when wrong or absent. -/
def RFile.parse_data (rf : RFile) (only_lzma : Bool)
    (D : List Nat → Except PyErr String) : Except PyErr RFile :=
  if only_lzma then rf.parse_lzma D
  else do
    let p1 := rf.reader.read_u8
    let p2 := p1.2.read_i32
    let (map_md5, r3) ← p2.2.read_string
    let (player_name, r4) ← r3.read_string
    let (replay_md5, r5) ← r4.read_string
    let p6 := r5.read_u16
    let p7 := p6.2.read_u16
    let p8 := p7.2.read_u16
    let p9 := p8.2.read_u16
    let p10 := p9.2.read_u16
    let p11 := p10.2.read_u16
    let p12 := p11.2.read_i32
    let p13 := p12.2.read_u16
    let p14 := p13.2.read_u8
    let p15 := p14.2.read_i32
    let (life_graph, r16) ← p15.2.read_string
    let p17 := r16.read_i64
    Except.ok { rf with
      reader := p17.2
      mode := p1.1
      osu_version := p2.1
      map_md5 := map_md5
      player_name := player_name
      replay_md5 := replay_md5
      n300 := p6.1
      n100 := p7.1
      n50 := p8.1
      ngeki := p9.1
      nkatu := p10.1
      nmiss := p11.1
      score := p12.1
      max_combo := p13.1
      perfect := p14.1 = 1
      mods := p15.1
      life_graph := life_graph
      timestamp_us := parse_timestamp p17.1 }

/-- ReplayFile.from_bytes (lines 137-144): cls.__init__(cls) resets
every attribute of the class object itself, the reader is attached,
and parse_data runs with the class object as self; the very same class
object is what the call returns, so all from_bytes results alias one
shared record.  The slot argument is that shared class object's state
before the call; __init__ overwrites every one of its fields, which is
why the result ignores it. -/
def from_bytes (slot : RFile) (bytedata : List Nat) (pure_lzma : Bool)
    (D : List Nat → Except PyErr String) : Except PyErr RFile :=
  let cls := RFile.init
  let cls := { cls with reader := { buffer := bytedata, offset := 0 } }
  cls.parse_data pure_lzma D

/-- Modelled from the spec: the abbreviations of the fixed table whose
bit is set in the bitmask, in table declaration order. -/
def selectedMods (m : Int) : List String :=
  (MODS.filter (fun p => decide (Int.land m p.2 ≠ 0))).map Prod.fst

/-- Modelled from the spec: emission of an ordered list of
abbreviations as the source's space-joined string, one separator space
before each entry. -/
def renderMods : List String → String
  | [] => ""
  | n :: t => " " ++ n ++ renderMods t

/-- Modelled from the spec: per-token frame construction following the
claim's wording.  The token splits on the pipe into exactly delta,
field1, field2, field3; a sentinel delta with a sufficient version
stores field3 as the seed; otherwise the mode-specific variant is
built (Standard from delta, float field1, float field2, int field3;
Taiko dropping field2; Catch comparing field3 with "1"; Mania from
delta and int field1).  Any malformed token or failed numeric parse
yields none. -/
def spec_token_step (mode version : Int) (st : FrameState) (tok : String) :
    Option FrameState :=
  match pySplit tok '|' with
  | [d, f1, f2, f3] =>
    if version ≥ 20130319 ∧ d = "-12345" then
      (pyInt? f3).map (fun s => { st with seed := some s })
    else if mode = 0 then
      match pyInt? d, pyFloat? f1, pyFloat? f2, pyInt? f3 with
      | some dv, some x, some y, some k =>
        some { st with frames := st.frames ++ [ReplayFrame.OsuReplayFrame dv x y k] }
      | _, _, _, _ => none
    else if mode = 1 then
      match pyInt? d, pyFloat? f1, pyInt? f3 with
      | some dv, some x, some k =>
        some { st with frames := st.frames ++ [ReplayFrame.TaikoReplayFrame dv x k] }
      | _, _, _ => none
    else if mode = 2 then
      match pyInt? d, pyFloat? f1 with
      | some dv, some x =>
        some { st with frames := st.frames ++ [ReplayFrame.CatchReplayFrame dv x (f3 = "1")] }
      | _, _ => none
    else if mode = 3 then
      match pyInt? d, pyInt? f1 with
      | some dv, some k =>
        some { st with frames := st.frames ++ [ReplayFrame.ManiaReplayFrame dv k] }
      | _, _ => none
    else none
  | _ => none

/-- Modelled from the spec: split the decompressed text on the comma,
discard the final empty token produced by the trailing delimiter, and
fold the per-token construction from an empty frame sequence. -/
def demux_spec (mode version : Int) (text : String) : Option FrameState :=
  let toks0 := pySplit text ','
  let toks := if toks0.getLast? = some "" then toks0.dropLast else toks0
  toks.foldlM (spec_token_step mode version) { frames := [], seed := none }

-- DecidableEq for Except results, used to state concrete evaluations.
deriving instance DecidableEq for Except

/-- Bind on a successful Except reduces to the continuation. -/
theorem except_bind_ok {ε α β : Type} (a : α) (f : α → Except ε β) :
    (Except.ok a >>= f) = f a := rfl

/-- Bind on a failed Except short-circuits. -/
theorem except_bind_error {ε α β : Type} (e : ε) (f : α → Except ε β) :
    ((Except.error e : Except ε α) >>= f) = Except.error e := rfl

/-- Pure of the Except monad is ok. -/
theorem except_pure {ε α : Type} (a : α) : (pure a : Except ε α) = Except.ok a := rfl

/-- toOption of ok. -/
theorem except_toOption_ok {ε α : Type} (a : α) :
    (Except.ok a : Except ε α).toOption = some a := rfl

/-- toOption of error. -/
theorem except_toOption_error {ε α : Type} (e : ε) :
    (Except.error e : Except ε α).toOption = none := rfl

/-- Record with the given hit counts and an empty accuracy cache, as
left by a header parse. -/
def mkHitState (a b c d : Nat) : RFile :=
  { RFile.init with n300 := (a : Int), n100 := (b : Int), n50 := (c : Int), nmiss := (d : Int) }

/-- Claim C1.  The claim says a buffer whose first byte is not the
0x0b marker makes read_uleb128 fail with MalformedVarint and never
silently return a default or empty value.  The code instead executes
line 60, return "", silently producing the empty Python string in a
function annotated -> int; the enclosing read_string then dies with a
TypeError when it adds that string to an integer offset.  This theorem
evaluates the embedded code at such an input: byte 0x00 in place of
the marker. -/
theorem c1_uleb128_nonmarker_silent_empty :
    BinaryRotator.read_uleb128 { buffer := [0], offset := 0 } =
      (ULebRet.strVal "", { buffer := [0], offset := 1 }) ∧
    BinaryRotator.read_string { buffer := [0], offset := 0 } =
      Except.error PyErr.typeErr := by
  exact ⟨by decide, by decide⟩

/-- Claim C4: the accuracy computation equals (n300 + n100/3 + n50/6)
divided by max(n300+n100+n50+nMiss, 1), times 100, for all
non-negative hit counts; with value 100 on (300,0,0,0) and 0 on
(0,0,0,0), the denominator floor of 1 preventing division by zero. -/
theorem c4_accuracy_formula :
    (∀ a b c d : Nat,
        ((mkHitState a b c d).accuracy).1 =
          ((a : Rat) + (b : Rat) / 3 + (c : Rat) / 6) /
            (((max ((a : Int) + (b : Int) + (c : Int) + (d : Int)) 1 : Int) : Rat)) * 100) ∧
    ((mkHitState 300 0 0 0).accuracy).1 = 100 ∧
    ((mkHitState 0 0 0 0).accuracy).1 = 0 := by
  have hgen : ∀ a b c d : Nat,
      ((mkHitState a b c d).accuracy).1 =
        ((a : Rat) + (b : Rat) / 3 + (c : Rat) / 6) /
          (((max ((a : Int) + (b : Int) + (c : Int) + (d : Int)) 1 : Int) : Rat)) * 100 := by
    intro a b c d
    simp only [RFile.accuracy, mkHitState, RFile.init]
    push_cast
    ring
  refine ⟨hgen, ?_, ?_⟩
  · rw [hgen]; norm_num
  · rw [hgen]; norm_num

/-- String append in terms of character lists. -/
theorem str_mk_append (a b : List Char) :
    String.mk a ++ String.mk b = String.mk (a ++ b) := rfl

/-- Appending the empty string on the right is the identity. -/
theorem str_append_nil (s : String) : s ++ "" = s := by
  cases s with
  | mk d =>
    rw [show ("" : String) = String.mk [] from rfl, str_mk_append, List.append_nil]

/-- Appending the empty string on the left is the identity. -/
theorem str_nil_append (s : String) : "" ++ s = s := by
  cases s with
  | mk d =>
    rw [show ("" : String) = String.mk [] from rfl, str_mk_append, List.nil_append]

/-- String append is associative. -/
theorem str_append_assoc (a b c : String) : a ++ b ++ c = a ++ (b ++ c) := by
  cases a with
  | mk la =>
    cases b with
    | mk lb =>
      cases c with
      | mk lc => simp only [str_mk_append, List.append_assoc]

/-- The reduce of parse_osu_mods renders, after the starting
accumulator, exactly the abbreviations of the selected table entries
in declaration order, each preceded by one space. -/
theorem mods_foldl_render (m : Int) :
    ∀ (l : List (String × Int)) (acc : String),
      l.foldl (fun a v => if Int.land m v.2 ≠ 0 then a ++ " " ++ v.1 else a) acc
        = acc ++ renderMods ((l.filter (fun p => decide (Int.land m p.2 ≠ 0))).map Prod.fst) := by
  intro l
  induction l with
  | nil => intro acc; simp [renderMods, str_append_nil]
  | cons p t ih =>
    intro acc
    rw [List.foldl_cons]
    by_cases h : Int.land m p.2 ≠ 0
    · rw [if_pos h, ih, List.filter_cons, if_pos (by simpa using h)]
      simp only [List.map_cons, renderMods, str_append_assoc]
    · rw [if_neg h, ih, List.filter_cons, if_neg (by simpa using h)]

/-- Filtering with pointwise-equal predicates gives equal results. -/
theorem filter_congr_own {α : Type} (f g : α → Bool) :
    ∀ (l : List α), (∀ x ∈ l, f x = g x) → l.filter f = l.filter g := by
  intro l
  induction l with
  | nil => intro _; rfl
  | cons a t ih =>
    intro h
    rw [List.filter_cons, List.filter_cons, h a (by simp),
      ih (fun x hx => h x (by simp [hx]))]

/-- Claim C3: parse_osu_mods emits exactly the abbreviations of the
fixed table whose bit is set, in table declaration order (space-joined
with one separator space before each); the zero bitmask yields the
empty emission, bitmask 8+16 yields HD then HR in that order, and bits
absent from the table never influence the result. -/
theorem c3_mods_table_order :
    (∀ m : Int, parse_osu_mods m = renderMods (selectedMods m)) ∧
    parse_osu_mods 0 = "" ∧
    selectedMods 0 = [] ∧
    selectedMods 24 = ["HD", "HR"] ∧
    parse_osu_mods 24 = " HD HR" ∧
    (∀ m m2 : Int, (∀ p ∈ MODS, Int.land m p.2 = Int.land m2 p.2) →
      parse_osu_mods m = parse_osu_mods m2) := by
  have hgen : ∀ m : Int, parse_osu_mods m = renderMods (selectedMods m) := by
    intro m
    unfold parse_osu_mods selectedMods
    rw [mods_foldl_render m MODS "", str_nil_append]
  refine ⟨hgen, by decide, by decide, by decide, by decide, ?_⟩
  intro m m2 h
  rw [hgen, hgen]
  unfold selectedMods
  rw [filter_congr_own _ _ MODS (fun p hp => by rw [h p hp])]

/-- Witness for claim C3 at a concrete input: bit 2^40 is unknown to
the table and does not change the emission for bitmask 8. -/
theorem c3_mods_table_order_witness :
    parse_osu_mods 8 = parse_osu_mods 1099511627784 :=
  c3_mods_table_order.2.2.2.2.2 8 1099511627784 (by decide)

/-- A list of length four is literally a four-element list. -/
theorem four_of_length {α : Type} (l : List α) (h : l.length = 4) :
    ∃ a b c d, l = [a, b, c, d] := by
  cases l with
  | nil => simp at h
  | cons a t =>
    cases t with
    | nil => simp at h
    | cons b t2 =>
      cases t2 with
      | nil => simp at h
      | cons c t3 =>
        cases t3 with
        | nil => simp at h
        | cons d t4 =>
          cases t4 with
          | nil => exact ⟨a, b, c, d, rfl⟩
          | cons e t5 => simp at h

/-- Per-token agreement: on a token that splits into exactly four
pipe-separated fields, and for one of the four known modes, the
embedded loop body of read_lzma and the spec-side construction compute
the same result (failures on both sides becoming none). -/
theorem step_agree (mode version : Int) (st : FrameState) (tok : String)
    (hm : mode = 0 ∨ mode = 1 ∨ mode = 2 ∨ mode = 3)
    (hlen : (pySplit tok '|').length = 4) :
    (frame_step mode version st tok).toOption = spec_token_step mode version st tok := by
  obtain ⟨a, b, c, d, hl⟩ := four_of_length _ hlen
  simp only [frame_step, spec_token_step, hl, List.headD_cons]
  by_cases hs : version ≥ 20130319 ∧ a = "-12345"
  · rw [if_pos hs, if_pos hs]
    cases hpd : pyInt? d with
    | none =>
      simp [getTok, pyIntE, hpd, except_bind_ok, except_bind_error, except_toOption_error]
    | some s =>
      simp [getTok, pyIntE, hpd, except_bind_ok, except_toOption_ok]
  · rw [if_neg hs, if_neg hs]
    rcases hm with hm | hm | hm | hm <;> subst hm <;>
      simp only [show ((0 : Int) = 0) = True by simp, show ((1 : Int) = 0) = False by simp,
        show ((1 : Int) = 1) = True by simp, show ((2 : Int) = 0) = False by simp,
        show ((2 : Int) = 1) = False by simp, show ((2 : Int) = 2) = True by simp,
        show ((3 : Int) = 0) = False by simp, show ((3 : Int) = 1) = False by simp,
        show ((3 : Int) = 2) = False by simp, show ((3 : Int) = 3) = True by simp,
        if_true, if_false] <;>
      cases hpa : pyInt? a <;> cases hpb : pyFloat? b <;> cases hpc : pyFloat? c <;>
        cases hpd : pyInt? d <;> cases hpm : pyInt? b <;>
        simp [getTok, pyIntE, pyFloatE, hpa, hpb, hpc, hpd, hpm,
          except_bind_ok, except_bind_error, except_toOption_ok, except_toOption_error]

/-- Folding in the Except monad agrees with folding in the Option
monad whenever the step functions agree pointwise on the list. -/
theorem foldlM_toOption_eq {α σ : Type} (f : σ → α → Except PyErr σ) (g : σ → α → Option σ) :
    ∀ (l : List α), (∀ a ∈ l, ∀ s, (f s a).toOption = g s a) →
      ∀ s, (List.foldlM f s l).toOption = List.foldlM g s l := by
  intro l
  induction l with
  | nil => intro _ s; rfl
  | cons a t ih =>
    intro h s
    rw [List.foldlM_cons, List.foldlM_cons]
    cases hfa : f s a with
    | error e =>
      have hg : g s a = none := by rw [← h a (by simp) s, hfa]; rfl
      rw [hg]
      simp [except_bind_error, except_toOption_error]
    | ok s2 =>
      have hg : g s a = some s2 := by rw [← h a (by simp) s, hfa]; rfl
      rw [hg]
      simp only [except_bind_ok, Option.some_bind]
      exact ih (fun x hx s3 => h x (by simp [hx]) s3) s2

/-- Claim C5: for every decompressed frame text with a trailing
delimiter (so the final split token is the empty one) whose tokens
each split into exactly four pipe-separated fields, and for every
known mode, the embedded frame demultiplexer of read_lzma computes
exactly the spec-side construction: split on the comma, discard the
final empty token, split each token on the pipe into delta and three
fields, and build the mode-specific frame variant (the spec-modelled
demux_spec fixes the sentinel and per-mode shapes following the
claim's words). -/
theorem c5_frame_demux_refines_spec (mode version : Int) (text : String)
    (hm : mode = 0 ∨ mode = 1 ∨ mode = 2 ∨ mode = 3)
    (hlast : (pySplit text ',').getLast? = some "")
    (htok : ∀ tok ∈ (pySplit text ',').dropLast, (pySplit tok '|').length = 4) :
    (parse_frames_text mode version text).toOption = demux_spec mode version text := by
  simp only [parse_frames_text, run_frame_tokens, demux_spec]
  rw [if_pos hlast]
  exact foldlM_toOption_eq _ _ _
    (fun tok hmem s => step_agree mode version s tok hm (htok tok hmem)) _

/-- Witness for claim C5 at the concrete stream of the claim: under
Standard mode the example text decodes to exactly the two claimed
frames, the trailing empty token discarded. -/
theorem c5_frame_demux_refines_spec_witness :
    (parse_frames_text 0 0 "0|1.0|2.0|0,-1|0.0|0.0|0,").toOption =
      some { frames := [ReplayFrame.OsuReplayFrame 0 1 2 0,
                        ReplayFrame.OsuReplayFrame (-1) 0 0 0], seed := none } :=
  (c5_frame_demux_refines_spec 0 0 "0|1.0|2.0|0,-1|0.0|0.0|0," (Or.inl rfl)
      (by decide) (by decide)).trans
    (by norm_num +decide [demux_spec, spec_token_step, pySplit, splitChars, pyInt?, pyFloat?,
      pyFloatMag?, digitsToNat?, digitsVal, digitVal, List.foldlM])

/-- Claim C6: a token whose delta field is the literal sentinel
-12345, processed with a format version of at least 20130319, is never
emitted as a frame: its fourth field is parsed as the integer seed,
overwriting any seed recorded earlier, and the frame list is left
untouched, for every mode. -/
theorem c6_sentinel_seed (mode version : Int) (st : FrameState) (tok f3 : String) (s : Int)
    (hv : version ≥ 20130319)
    (hd : (pySplit tok '|').headD "" = "-12345")
    (h3 : (pySplit tok '|').get? 3 = some f3)
    (hs : pyInt? f3 = some s) :
    frame_step mode version st tok = Except.ok { frames := st.frames, seed := some s } := by
  simp only [frame_step, if_pos (And.intro hv hd), getTok, h3, except_bind_ok, pyIntE, hs]

/-- Witness for claim C6 at the claim's concrete token: with version
20130319 the token -12345 pipe 0 pipe 0 pipe 777 yields seed 777 and
contributes zero frames. -/
theorem c6_sentinel_seed_witness :
    frame_step 0 20130319 { frames := [], seed := none } "-12345|0|0|777" =
      Except.ok { frames := [], seed := some 777 } :=
  c6_sentinel_seed 0 20130319 { frames := [], seed := none } "-12345|0|0|777" "777" 777
    (by decide) (by decide) (by decide) (by decide)

/-- Record poised just before the trailer reads, with the given
version, mods and remaining buffer. -/
def trailerState (v m : Int) (buf : List Nat) : RFile :=
  { RFile.init with
    osu_version := v
    mods := m
    reader := { buffer := buf, offset := 0 } }

/-- Claim C7.  The score-id half of the claim holds: version 20140721
and above reads 8 bytes as a 64-bit integer, versions in [20121008,
20140721) read 4 bytes, and earlier versions read nothing.  The
target-practice half is where the code breaks: whenever mod bit
8388608 is set, read_f64 feeds the 8 bytes it consumed to
struct.unpack with the 4-byte "<f" format, so struct.error is raised
instead of a 64-bit float being read.  All four behaviours are
evaluated here on concrete states. -/
theorem c7_trailer_eval :
    RFile.read_trailer (trailerState 20140721 0 [1, 0, 0, 0, 0, 0, 0, 0, 9, 9]) =
      Except.ok { trailerState 20140721 0 [1, 0, 0, 0, 0, 0, 0, 0, 9, 9] with
        score_id_ := some 1
        reader := { buffer := [1, 0, 0, 0, 0, 0, 0, 0, 9, 9], offset := 8 } } ∧
    RFile.read_trailer (trailerState 20121008 0 [1, 0, 0, 0, 9, 9]) =
      Except.ok { trailerState 20121008 0 [1, 0, 0, 0, 9, 9] with
        score_id_ := some 1
        reader := { buffer := [1, 0, 0, 0, 9, 9], offset := 4 } } ∧
    RFile.read_trailer (trailerState 20121007 0 [1, 0, 0, 0]) =
      Except.ok (trailerState 20121007 0 [1, 0, 0, 0]) ∧
    RFile.read_trailer (trailerState 0 8388608 [0, 0, 0, 0, 0, 0, 0, 0]) =
      Except.error PyErr.structErr := by
  exact ⟨by decide, by decide, by decide, by decide⟩

/-- Decompressor stand-in for paths that must never invoke it. -/
def dummyD : List Nat → Except PyErr String :=
  fun _ => Except.error PyErr.lzmaErr

/-- A header buffer cut short: the minimal encoding of the fixed
schema is 44 bytes (1 mode, 4 version, 2+2+2 empty marker-only
strings, 12 hit counts, 4 score, 2 combo, 1 perfect, 4 mods, 2 empty
life graph, 8 timestamp); this buffer carries the first 36 bytes and
omits the 8 timestamp bytes. -/
def shortHeader : List Nat :=
  [0, 0, 0, 0, 0, 11, 0, 11, 0, 11, 0, 0, 0, 0, 0, 0, 0, 0, 0, 0, 0, 0, 0,
   0, 0, 0, 0, 0, 0, 0, 0, 0, 0, 0, 11, 0]

/-- Counterexample to claim C2: this 36-byte buffer is 8 bytes shorter
than its fixed schema needs, yet parse_data completes successfully
with a silent short read, the missing timestamp decoding as 0 ticks
(the cursor offset still advances to 44, past the end).  No
TruncatedHeader failure exists anywhere in the code. -/
theorem c2_counterexample_short_header_completes :
    shortHeader.length = 36 ∧
    RFile.parse_data { RFile.init with reader := { buffer := shortHeader, offset := 0 } }
        false dummyD =
      Except.ok { RFile.init with reader := { buffer := shortHeader, offset := 44 } } := by
  exact ⟨by decide, by decide⟩

/-- Claim C2 as amended: a buffer shorter than the fixed schema does
not fail with TruncatedHeader; every fixed-width read silently
truncates to the bytes that remain (decoding missing bytes as zero),
so a header cut off inside a fixed-width field completes as a silent
short read, as the 36-byte buffer shows; only a string whose marker
byte is wrong or absent aborts the parse, with a TypeError rather than
TruncatedHeader. -/
theorem c2_amended_silent_short_read :
    (∀ (r : BinaryRotator) (n : Nat),
        (r.read n).1 = (r.buffer.drop r.offset).take n ∧
        (r.read n).1.length ≤ n ∧
        (r.read n).2 = { r with offset := r.offset + n }) ∧
    (RFile.parse_data { RFile.init with reader := { buffer := shortHeader, offset := 0 } }
          false dummyD).isOk = true ∧
    RFile.parse_data { RFile.init with reader := { buffer := [7], offset := 0 } }
        false dummyD = Except.error PyErr.typeErr := by
  refine ⟨?_, by decide, by decide⟩
  intro r n
  refine ⟨rfl, ?_, rfl⟩
  simp only [BinaryRotator.read]
  rw [List.length_take]
  exact Nat.min_le_left _ _

/-- Decompressor oracle for the laziness experiment: the one-byte
block [93] decompresses to the empty frame text, anything else (in
particular the empty slice a re-read produces) is invalid LZMA
input. -/
def D8 : List Nat → Except PyErr String :=
  fun bs => if bs = [93] then Except.ok "" else Except.error PyErr.lzmaErr

/-- A fresh record over a buffer holding one well-formed frame
section: 4-byte length 1 followed by the 1-byte compressed block. -/
def rf0C8 : RFile :=
  { RFile.init with reader := { buffer := [1, 0, 0, 0, 93], offset := 0 } }

/-- The record state after one read_lzma pass over rf0C8: cursor past
the block, frames cached as the empty list, and the seed cache still
empty because the stream contained no sentinel. -/
def rf1C8 : RFile :=
  { RFile.init with
    reader := { buffer := [1, 0, 0, 0, 93], offset := 5 }
    frames_ := some [] }

/-- Counterexample to claim C8: the first seed access decodes the
frame section and returns none, leaving the seed cache empty; the
claim says every subsequent access to a frame-derived field returns
the cached result without re-reading from the cursor, but the second
seed access finds the cache still None, re-invokes read_lzma, reads a
second length from the spent cursor and fails on decompressing the
empty slice instead of returning the first result. -/
theorem c8_counterexample_seed_not_idempotent :
    RFile.seed_get rf0C8 D8 = Except.ok (none, rf1C8) ∧
    RFile.seed_get rf1C8 D8 = Except.error PyErr.lzmaErr := by
  exact ⟨by decide, by decide⟩

/-- Claim C8 as amended: lazy decoding caches per field, not per
record: an access returns the cached result without re-reading only
when that particular field was populated (frames always are after a
decode; seed, score id and target-practice hits only when the stream,
version and mods actually provided them); an access to a field whose
cache is still None re-invokes read_lzma and re-reads from the
cursor. -/
theorem c8_amended_populated_fields_cached :
    (∀ (rf : RFile) (D : List Nat → Except PyErr String) (l : List ReplayFrame),
        rf.frames_ = some l → rf.frames_get D = Except.ok (some l, rf)) ∧
    (∀ (rf : RFile) (D : List Nat → Except PyErr String) (s : Int),
        rf.seed_ = some s → rf.seed_get D = Except.ok (some s, rf)) ∧
    (∀ (rf : RFile) (D : List Nat → Except PyErr String) (v : Int),
        rf.score_id_ = some v → rf.score_id_get D = Except.ok (some v, rf)) ∧
    (∀ (rf : RFile) (D : List Nat → Except PyErr String) (u : Unit),
        rf.target_practice_hits_ = some u →
          rf.target_practice_hits_get D = Except.ok (some u, rf)) := by
  refine ⟨?_, ?_, ?_, ?_⟩ <;> intro rf D x h <;>
    simp [RFile.frames_get, RFile.seed_get, RFile.score_id_get,
      RFile.target_practice_hits_get, h]

/-- Witness for the amended claim C8 at a concrete state: with the
frames cache populated, a frames access returns it unchanged without
touching the cursor. -/
theorem c8_amended_populated_fields_cached_witness :
    RFile.frames_get rf1C8 D8 = Except.ok (some [], rf1C8) :=
  c8_amended_populated_fields_cached.1 rf1C8 D8 [] rfl

/-- Compressed block stand-in for the pure-lzma entry point. -/
def pureBlock : List Nat := [93, 0, 0]

/-- Decompressor oracle mapping the pure block to a one-frame text. -/
def D9 : List Nat → Except PyErr String :=
  fun bs => if bs = pureBlock then Except.ok "0|1.0|2.0|0," else Except.error PyErr.lzmaErr

/-- Claim C9.  The claim says the pure_lzma entry point decodes a
headerless compressed buffer directly into the frame sequence and
returns the populated record.  The code cannot: parse_lzma appends
through the frames property with the _frames cache still unset; via
from_bytes (where self is the class object) self.frames is the
property descriptor itself and .append raises AttributeError, and via
from_file the call self.parse_lzma(self) already raises TypeError.
This theorem evaluates the from_bytes path on a buffer whose block
decompresses to the single claimed frame. -/
theorem c9_pure_lzma_crashes :
    from_bytes RFile.init pureBlock true D9 = Except.error PyErr.attrErr := by
  decide

/-- A complete 45-byte header whose player name is "A" (byte 65). -/
def bufA : List Nat :=
  [0, 0, 0, 0, 0, 11, 0, 11, 1, 65, 11, 0, 0, 0, 0, 0, 0, 0, 0, 0, 0, 0, 0,
   0, 0, 0, 0, 0, 0, 0, 0, 0, 0, 0, 0, 11, 0, 0, 0, 0, 0, 0, 0, 0, 0]

/-- The same header with player name "B" (byte 66). -/
def bufB : List Nat :=
  [0, 0, 0, 0, 0, 11, 0, 11, 1, 66, 11, 0, 0, 0, 0, 0, 0, 0, 0, 0, 0, 0, 0,
   0, 0, 0, 0, 0, 0, 0, 0, 0, 0, 0, 0, 11, 0, 0, 0, 0, 0, 0, 0, 0, 0]

/-- Claim C10: from_bytes populates the class object itself (line 140
resets the class's own attributes and line 144 returns the class), so
every from_bytes result aliases the one shared slot.  Observably:
the outcome of a from_bytes call is entirely independent of the slot's
previous contents, because cls.__init__(cls) overwrites every field;
hence after a second call on a different buffer, the shared record the
first call handed out carries only the second buffer's data.  The
third conjunct shows it concretely: whatever record state the first
call left in the slot (here, any s1 at all, including the decode of
bufA, whose player name is "A" by the second conjunct), a second call
on bufB leaves the slot holding player name "B". -/
theorem c10_from_bytes_shared_slot :
    (∀ (slot slot2 : RFile) (b : List Nat) (p : Bool)
        (D : List Nat → Except PyErr String),
        from_bytes slot b p D = from_bytes slot2 b p D) ∧
    (from_bytes RFile.init bufA false dummyD).map RFile.player_name = Except.ok "A" ∧
    (∀ s1 : RFile,
        (from_bytes s1 bufB false dummyD).map RFile.player_name = Except.ok "B") := by
  have hindep : ∀ (slot slot2 : RFile) (b : List Nat) (p : Bool)
      (D : List Nat → Except PyErr String),
      from_bytes slot b p D = from_bytes slot2 b p D :=
    fun _ _ _ _ _ => rfl
  have hB : (from_bytes RFile.init bufB false dummyD).map RFile.player_name =
      Except.ok "B" := by decide
  exact ⟨hindep, by decide,
    fun s1 => by rw [hindep s1 RFile.init bufB false dummyD]; exact hB⟩
